import Mathlib

/-!
Verification of the `SharedSlashCommand` builder mixin
(`packages/builders/src/interactions/slashCommands/mixins/SharedSlashCommand.ts`).

The class is a fluent builder for a chat-input application-command descriptor:
a record of optional fields mutated in place by setter methods (each of which
validates its input before committing it via `Reflect.set`) and serialized by
`toJSON()`, which re-validates required parameters and localization maps and
then returns `{ ...this, type: ApplicationCommandType.ChatInput, options:
this.options.map((o) => o.toJSON()) }`.

Embedding conventions:
* the mutable object is a Lean structure `SharedSlashCommand`; a TypeScript
  field of type `T | undefined` becomes `Option T` (`none` = `undefined`);
  a field that can also hold `null` becomes `Option (Option T)`
  (`some none` = `null`);
* a method that can throw returns `Except`; since every throw in a setter body
  happens before the single `Reflect.set` statement, the state at the throw
  point is the entry state, and the error value carries that state explicitly
  so that "state after a failed call" is part of the result;
* the validation primitives live in `Assertions.ts`, outside the analyzed
  source tree; each is modelled from the specification, as marked in its doc
  comment;
* option sub-entities are opaque to the class: the only capability it uses is
  `toJSON()`, so an option is modelled as a record holding the document its
  own `toJSON()` returns.
-/

/-- Wire payload of one serialized option sub-entity.  The builder never
inspects option internals, only the value `option.toJSON()` produces, so the
payload is abstracted to a tag. -/
structure APIApplicationCommandOption where
  payload : Nat
deriving DecidableEq, Repr

/-- An option sub-entity as seen by the builder: a duck-typed object exposing
a zero-argument `toJSON()`.  Modelled as the record of the document that call
returns. -/
structure ToAPIApplicationCommandOptions where
  toJSON : APIApplicationCommandOption
deriving DecidableEq, Repr

/-- `InteractionContextType` enum from `discord-api-types/v10`. -/
inductive InteractionContextType where
  | guild
  | botDM
  | privateChannel
deriving DecidableEq, Repr

/-- `ApplicationIntegrationType` enum from `discord-api-types/v10`. -/
inductive ApplicationIntegrationType where
  | guildInstall
  | userInstall
deriving DecidableEq, Repr

/-- `ApplicationCommandType` enum from `discord-api-types/v10`; `toJSON()`
stamps `chatInput` into the output. -/
inductive ApplicationCommandType where
  | chatInput
  | user
  | message
deriving DecidableEq, Repr

/-- `Permissions` from `discord-api-types`: the canonical bitfield
representation is a decimal string. -/
abbrev Permissions := String

/-- A localization map: locale-tag keys with string values.  Modelled from the
spec: "optional mapping from locale-tag to string". -/
abbrev LocalizationMap := List (String × String)

/-- Validation failures raised by the injected rule set.  Modelled from the
spec: a `ValidationError` carries enough context (the offending value) to let
the caller fix the call site. -/
inductive ValidationError where
  /-- the joint required-parameter check over (name, description, options) failed -/
  | requiredParameters
  /-- a localization-map entry has an unrecognized locale tag or a value
  failing the base-field shape check; carries the offending entry -/
  | invalidLocalization (entry : String × String)
  /-- the contexts sequence failed the contexts predicate -/
  | invalidContexts
  /-- the integration-types sequence failed the integration-types predicate -/
  | invalidIntegrationTypes
  /-- a non-boolean value reached `validateDefaultPermission` -/
  | invalidDefaultPermission
  /-- a malformed or out-of-range value reached `validateDefaultMemberPermissions` -/
  | invalidDefaultMemberPermissions
  /-- a value outside boolean/null/undefined reached `validateDMPermission` -/
  | invalidDMPermission
  /-- a non-boolean value reached `validateNSFW` -/
  | invalidNSFW
deriving DecidableEq, Repr

/-- The locale tags recognized by the external schema (`Locale` enum of
`discord-api-types`).  Modelled from the spec: the localization check demands
that every key be "a recognized locale tag". -/
def recognizedLocaleTags : List String :=
  ["id", "da", "de", "en-GB", "en-US", "es-ES", "es-419", "fr", "hr", "it",
   "lt", "hu", "nl", "no", "pl", "pt-BR", "ro", "fi", "sv-SE", "vi", "tr",
   "cs", "el", "bg", "ru", "uk", "hi", "th", "zh-CN", "ja", "zh-TW", "ko"]

/-- Modelled from the spec: `validateLocalizationMap` (in `Assertions.ts`,
outside the analyzed tree) accepts an absent map, and otherwise fails on the
first entry whose key is not a recognized locale tag or whose value fails the
base-field shape check (non-empty string). -/
def validateLocalizationMap : Option LocalizationMap → Except ValidationError Unit
  | none => .ok ()
  | some entries =>
    match entries.find? (fun e => !(recognizedLocaleTags.contains e.1 && e.2 != "")) with
    | some bad => .error (.invalidLocalization bad)
    | none => .ok ()

/-- Modelled from the spec: `validateRequiredParameters` (in `Assertions.ts`,
outside the analyzed tree) checks `(name, description, options)` jointly and
fails if `name` or `description` is unset or empty; the `options` argument must
exist as a sequence, which the typed embedding guarantees. -/
def validateRequiredParameters (name description : Option String)
    (_options : List ToAPIApplicationCommandOptions) : Except ValidationError Unit :=
  match name, description with
  | some n, some d =>
    if n = "" then .error .requiredParameters
    else if d = "" then .error .requiredParameters
    else .ok ()
  | _, _ => .error .requiredParameters

/-- Modelled from the spec: `contextsPredicate` (in `Assertions.ts`, outside
the analyzed tree) demands a non-empty sequence of recognized context enum
members; membership is guaranteed by the typed embedding, so only emptiness
can fail. -/
def contextsPredicate (xs : List InteractionContextType) :
    Except ValidationError (List InteractionContextType) :=
  if xs.isEmpty then .error .invalidContexts else .ok xs

/-- Modelled from the spec: `integrationTypesPredicate` (in `Assertions.ts`,
outside the analyzed tree), same shape contract as `contextsPredicate`. -/
def integrationTypesPredicate (xs : List ApplicationIntegrationType) :
    Except ValidationError (List ApplicationIntegrationType) :=
  if xs.isEmpty then .error .invalidIntegrationTypes else .ok xs

/-- A runtime value handed to a setter whose declared parameter type is
`boolean`.  JavaScript callers can pass anything, which is why the injected
boolean rule exists; `other` stands for any non-boolean runtime value. -/
inductive BooleanInput where
  | bool (b : Bool)
  | other
deriving DecidableEq, Repr

/-- Modelled from the spec: `validateDefaultPermission` (in `Assertions.ts`,
outside the analyzed tree) asserts the value is strictly boolean. -/
def validateDefaultPermission : BooleanInput → Except ValidationError Bool
  | .bool b => .ok b
  | .other => .error .invalidDefaultPermission

/-- A runtime value handed to `setDMPermission`, whose declared parameter type
is `boolean | null | undefined`; `other` stands for any value outside that
grammar. -/
inductive DMPermissionInput where
  | bool (b : Bool)
  | null
  | undef
  | other
deriving DecidableEq, Repr

/-- Modelled from the spec: `validateDMPermission` (in `Assertions.ts`,
outside the analyzed tree) accepts boolean, `null`, or `undefined`, all three
valid and distinguishable, and fails on anything else.  Returns the value to
store: `some (some b)` for a boolean, `some none` for `null`, `none` for
`undefined`. -/
def validateDMPermission : DMPermissionInput → Except ValidationError (Option (Option Bool))
  | .bool b => .ok (some (some b))
  | .null => .ok (some none)
  | .undef => .ok none
  | .other => .error .invalidDMPermission

/-- A runtime value handed to `setDefaultMemberPermissions`, whose declared
parameter type is `Permissions | bigint | number | null | undefined`; `str`
covers the `Permissions` string form, `int` the `bigint`/`number` literal
forms, `other` any value outside the grammar. -/
inductive PermissionsInput where
  | str (s : String)
  | int (n : Int)
  | null
  | undef
  | other
deriving DecidableEq, Repr

/-- Modelled from the spec: `validateDefaultMemberPermissions` (in
`Assertions.ts`, outside the analyzed tree) preserves `null` as `null` and
`undefined` as unset, normalizes non-null inputs into the canonical decimal
bitfield string, and fails on out-of-range (negative) or malformed
(non-decimal string) input.  Returns the value to store: `some (some p)` for
a bitfield, `some none` for `null`, `none` for `undefined`. -/
def validateDefaultMemberPermissions :
    PermissionsInput → Except ValidationError (Option (Option Permissions))
  | .str s =>
    if s ≠ "" && s.data.all Char.isDigit then .ok (some (some s))
    else .error .invalidDefaultMemberPermissions
  | .int n =>
    if 0 ≤ n then .ok (some (some (toString n)))
    else .error .invalidDefaultMemberPermissions
  | .null => .ok (some none)
  | .undef => .ok none
  | .other => .error .invalidDefaultMemberPermissions

/-- A runtime value handed to `setNSFW`, whose declared parameter is
`nsfw = true`: the call may omit the argument entirely, pass `undefined`
explicitly, pass a boolean, or (from JavaScript) pass anything else. -/
inductive NSFWInput where
  | omitted
  | undef
  | bool (b : Bool)
  | other
deriving DecidableEq, Repr

/-- Modelled from the spec: `validateNSFW` (in `Assertions.ts`, outside the
analyzed tree) asserts the value is strictly boolean. -/
def validateNSFW : BooleanInput → Except ValidationError Bool
  | .bool b => .ok b
  | .other => .error .invalidNSFW

/-- The variadic-or-array calling convention `RestOrArray<T>`: a call site
either spreads the values (`fn(a, b, c)`) or passes one array (`fn([a, b, c])`). -/
inductive RestOrArray (α : Type) where
  | rest (xs : List α)
  | arr (xs : List α)
deriving DecidableEq, Repr

/-- Modelled from the spec: `normalizeArray` (in `util/normalizeArray.ts`,
outside the analyzed tree) converts either calling convention into the single
ordered sequence of values. -/
def normalizeArray : RestOrArray α → List α
  | .rest xs => xs
  | .arr xs => xs

/-- The `SharedSlashCommand` mixin state: one field per declared class field,
with the class-field initializers as defaults (`undefined!` and `undefined`
become `none`; `options` starts `[]`).  `dm_permission` is modelled as
`Option (Option Bool)` because `setDMPermission` stores `null` through
`Reflect.set` even though the field is declared `boolean | undefined`. -/
structure SharedSlashCommand where
  name : Option String := none
  name_localizations : Option LocalizationMap := none
  description : Option String := none
  description_localizations : Option LocalizationMap := none
  options : List ToAPIApplicationCommandOptions := []
  contexts : Option (List InteractionContextType) := none
  default_permission : Option Bool := none
  default_member_permissions : Option (Option Permissions) := none
  dm_permission : Option (Option Bool) := none
  integration_types : Option (List ApplicationIntegrationType) := none
  nsfw : Option Bool := none
deriving DecidableEq, Repr

/-- Result of a setter call on an in-place-mutated object: on success the
updated object, on failure the thrown `ValidationError` paired with the
object's state at the throw point.  In every setter body the only possible
throw precedes the single `Reflect.set`, so the carried state is the entry
state by direct translation of the statement order. -/
abbrev SetterResult := Except (ValidationError × SharedSlashCommand) SharedSlashCommand

/-- `setContexts(...contexts)`: `Reflect.set(this, 'contexts',
contextsPredicate.parse(normalizeArray(contexts)))`. -/
def SharedSlashCommand.setContexts (c : SharedSlashCommand)
    (contexts : RestOrArray InteractionContextType) : SetterResult :=
  match contextsPredicate (normalizeArray contexts) with
  | .error e => .error (e, c)
  | .ok v => .ok { c with contexts := some v }

/-- `setIntegrationTypes(...integrationTypes)`: `Reflect.set(this,
'integration_types', integrationTypesPredicate.parse(normalizeArray(integrationTypes)))`. -/
def SharedSlashCommand.setIntegrationTypes (c : SharedSlashCommand)
    (integrationTypes : RestOrArray ApplicationIntegrationType) : SetterResult :=
  match integrationTypesPredicate (normalizeArray integrationTypes) with
  | .error e => .error (e, c)
  | .ok v => .ok { c with integration_types := some v }

/-- `setDefaultPermission(value)`: validate, then `Reflect.set(this,
'default_permission', value)`. -/
def SharedSlashCommand.setDefaultPermission (c : SharedSlashCommand)
    (value : BooleanInput) : SetterResult :=
  match validateDefaultPermission value with
  | .error e => .error (e, c)
  | .ok b => .ok { c with default_permission := some b }

/-- `setDefaultMemberPermissions(permissions)`: `const permissionValue =
validateDefaultMemberPermissions(permissions)`, then `Reflect.set(this,
'default_member_permissions', permissionValue)`. -/
def SharedSlashCommand.setDefaultMemberPermissions (c : SharedSlashCommand)
    (permissions : PermissionsInput) : SetterResult :=
  match validateDefaultMemberPermissions permissions with
  | .error e => .error (e, c)
  | .ok v => .ok { c with default_member_permissions := v }

/-- `setDMPermission(enabled)`: validate, then `Reflect.set(this,
'dm_permission', enabled)` storing the value verbatim. -/
def SharedSlashCommand.setDMPermission (c : SharedSlashCommand)
    (enabled : DMPermissionInput) : SetterResult :=
  match validateDMPermission enabled with
  | .error e => .error (e, c)
  | .ok v => .ok { c with dm_permission := v }

/-- `setNSFW(nsfw = true)`: the JavaScript default-parameter rule substitutes
`true` whenever the argument is omitted or is `undefined`; then validate and
`Reflect.set(this, 'nsfw', nsfw)`. -/
def SharedSlashCommand.setNSFW (c : SharedSlashCommand) (arg : NSFWInput) : SetterResult :=
  let nsfw : BooleanInput :=
    match arg with
    | .omitted => .bool true
    | .undef => .bool true
    | .bool b => .bool b
    | .other => .other
  match validateNSFW nsfw with
  | .error e => .error (e, c)
  | .ok b => .ok { c with nsfw := some b }

/-- `RESTPostAPIChatInputApplicationCommandsJSONBody` as produced by
`toJSON()`: the spread `{ ...this }` copies every own field of the descriptor,
then `type` is added and `options` overwritten with the serialized options. -/
structure CommandJSONBody where
  type : ApplicationCommandType
  name : Option String
  name_localizations : Option LocalizationMap
  description : Option String
  description_localizations : Option LocalizationMap
  options : List APIApplicationCommandOption
  contexts : Option (List InteractionContextType)
  default_permission : Option Bool
  default_member_permissions : Option (Option Permissions)
  dm_permission : Option (Option Bool)
  integration_types : Option (List ApplicationIntegrationType)
  nsfw : Option Bool
deriving DecidableEq, Repr

/-- `toJSON()`: `validateRequiredParameters(this.name, this.description,
this.options)`, then `validateLocalizationMap(this.name_localizations)`, then
`validateLocalizationMap(this.description_localizations)` (each throw aborts
the call), then `return { ...this, type: ApplicationCommandType.ChatInput,
options: this.options.map((option) => option.toJSON()) }`. -/
def SharedSlashCommand.toJSON (c : SharedSlashCommand) :
    Except ValidationError CommandJSONBody :=
  match validateRequiredParameters c.name c.description c.options with
  | .error e => .error e
  | .ok _ =>
    match validateLocalizationMap c.name_localizations with
    | .error e => .error e
    | .ok _ =>
      match validateLocalizationMap c.description_localizations with
      | .error e => .error e
      | .ok _ =>
        .ok {
          type := .chatInput
          name := c.name
          name_localizations := c.name_localizations
          description := c.description
          description_localizations := c.description_localizations
          options := c.options.map (fun option => option.toJSON)
          contexts := c.contexts
          default_permission := c.default_permission
          default_member_permissions := c.default_member_permissions
          dm_permission := c.dm_permission
          integration_types := c.integration_types
          nsfw := c.nsfw }

/-- A representative well-formed descriptor after a chain of setter calls:
name, description, two options, contexts and nsfw configured. -/
def builtDescriptor : SharedSlashCommand :=
  { name := some "ping"
    description := some "Replies with pong"
    options := [{ toJSON := ⟨1⟩ }, { toJSON := ⟨2⟩ }]
    contexts := some [.guild]
    nsfw := some false }

/-- The document `builtDescriptor.toJSON` returns. -/
def builtDoc : CommandJSONBody :=
  { type := .chatInput
    name := some "ping"
    name_localizations := none
    description := some "Replies with pong"
    description_localizations := none
    options := [⟨1⟩, ⟨2⟩]
    contexts := some [.guild]
    default_permission := none
    default_member_permissions := none
    dm_permission := none
    integration_types := none
    nsfw := some false }

/-- A descriptor with valid name and description but an unrecognized key in
its name-localization map. -/
def badLocDescriptor : SharedSlashCommand :=
  { name := some "a"
    description := some "b"
    name_localizations := some [("not-a-locale", "x")] }

/-- A descriptor whose name- and description-localization maps each hold a
distinct invalid entry. -/
def bothLocBad : SharedSlashCommand :=
  { name := some "ping"
    description := some "pong"
    name_localizations := some [("xx", "a")]
    description_localizations := some [("yy", "b")] }

/-- A descriptor with name unset and an invalid description-localization map. -/
def noNameBadLoc : SharedSlashCommand :=
  { description := some "pong"
    description_localizations := some [("yy", "b")] }

/-- A descriptor whose only invalid part is the description-localization map. -/
def descLocBad : SharedSlashCommand :=
  { name := some "ping"
    description := some "pong"
    description_localizations := some [("yy", "b")] }

/-- A descriptor with the newer permission fields (`contexts`,
`default_member_permissions`) already configured. -/
def newerFieldsSet : SharedSlashCommand :=
  { name := some "ping"
    description := some "pong"
    contexts := some [.guild]
    default_member_permissions := some (some "8") }

/-- `newerFieldsSet` with both deprecated fields configured as well. -/
def deprecatedSet : SharedSlashCommand :=
  { newerFieldsSet with
    default_permission := some false
    dm_permission := some (some true) }

/-- Characterization of a successful `toJSON()`: it succeeds exactly when the
three validation calls succeed, and the returned document is the field-for-field
copy of the descriptor with `type` stamped and `options` serialized. -/
theorem SharedSlashCommand.toJSON_ok_iff (c : SharedSlashCommand) (d : CommandJSONBody) :
    c.toJSON = Except.ok d ↔
      (validateRequiredParameters c.name c.description c.options = .ok () ∧
       validateLocalizationMap c.name_localizations = .ok () ∧
       validateLocalizationMap c.description_localizations = .ok () ∧
       d = { type := .chatInput
             name := c.name
             name_localizations := c.name_localizations
             description := c.description
             description_localizations := c.description_localizations
             options := c.options.map (fun option => option.toJSON)
             contexts := c.contexts
             default_permission := c.default_permission
             default_member_permissions := c.default_member_permissions
             dm_permission := c.dm_permission
             integration_types := c.integration_types
             nsfw := c.nsfw }) := by
  unfold SharedSlashCommand.toJSON
  cases hr : validateRequiredParameters c.name c.description c.options with
  | error e => simp [hr]
  | ok u =>
    cases hn : validateLocalizationMap c.name_localizations with
    | error e => simp [hr, hn]
    | ok v =>
      cases hd : validateLocalizationMap c.description_localizations with
      | error e => simp [hr, hn, hd]
      | ok w => simp [hr, hn, hd, eq_comm]

/-- Claim C1: a successful `toJSON()` returns a shallow field-for-field copy
of the descriptor's current fields with exactly two transformations: `type` is
set to the chat-input command type, and `options` is replaced by the
serializations of its elements in insertion order. -/
theorem claim_C1 (c : SharedSlashCommand) (d : CommandJSONBody)
    (h : c.toJSON = Except.ok d) :
    d.type = ApplicationCommandType.chatInput ∧
    d.options = c.options.map (fun option => option.toJSON) ∧
    d.name = c.name ∧
    d.name_localizations = c.name_localizations ∧
    d.description = c.description ∧
    d.description_localizations = c.description_localizations ∧
    d.contexts = c.contexts ∧
    d.default_permission = c.default_permission ∧
    d.default_member_permissions = c.default_member_permissions ∧
    d.dm_permission = c.dm_permission ∧
    d.integration_types = c.integration_types ∧
    d.nsfw = c.nsfw := by
  obtain ⟨-, -, -, rfl⟩ := (SharedSlashCommand.toJSON_ok_iff c d).mp h
  simp

/-- Witness for C1 on `builtDescriptor`, whose options were inserted in the
order `[⟨1⟩, ⟨2⟩]`. -/
theorem claim_C1_witness :
    builtDescriptor.toJSON = Except.ok builtDoc ∧
    (builtDoc.type = ApplicationCommandType.chatInput ∧
     builtDoc.options = builtDescriptor.options.map (fun option => option.toJSON) ∧
     builtDoc.name = builtDescriptor.name ∧
     builtDoc.name_localizations = builtDescriptor.name_localizations ∧
     builtDoc.description = builtDescriptor.description ∧
     builtDoc.description_localizations = builtDescriptor.description_localizations ∧
     builtDoc.contexts = builtDescriptor.contexts ∧
     builtDoc.default_permission = builtDescriptor.default_permission ∧
     builtDoc.default_member_permissions = builtDescriptor.default_member_permissions ∧
     builtDoc.dm_permission = builtDescriptor.dm_permission ∧
     builtDoc.integration_types = builtDescriptor.integration_types ∧
     builtDoc.nsfw = builtDescriptor.nsfw) :=
  ⟨rfl, claim_C1 builtDescriptor builtDoc rfl⟩

/-- Counterexample to C2 as stated: `badLocDescriptor` has a valid non-empty
name and description and an (empty) options sequence, yet `toJSON()` fails,
because its name-localization map holds an unrecognized locale tag. -/
theorem claim_C2_counterexample :
    badLocDescriptor.name = some "a" ∧ "a" ≠ "" ∧
    badLocDescriptor.description = some "b" ∧ "b" ≠ "" ∧
    badLocDescriptor.options = [] ∧
    badLocDescriptor.toJSON =
      Except.error (ValidationError.invalidLocalization ("not-a-locale", "x")) :=
  ⟨rfl, by decide, rfl, by decide, rfl, rfl⟩

/-- Claim C2 (amended): `toJSON()` succeeds — with `name`/`description`
copied exactly — for every descriptor whose name and description are valid
non-empty strings, whose options sequence exists, and whose localization maps
(when present) pass the localization-map check; and it fails with a validation
error, producing no document, for every descriptor with name or description
unset or empty. -/
theorem claim_C2 :
    (∀ (c : SharedSlashCommand) (n d : String), c.name = some n → n ≠ "" →
      c.description = some d → d ≠ "" →
      validateLocalizationMap c.name_localizations = .ok () →
      validateLocalizationMap c.description_localizations = .ok () →
      ∃ doc, c.toJSON = Except.ok doc ∧ doc.name = some n ∧ doc.description = some d) ∧
    (∀ c : SharedSlashCommand,
      c.name = none ∨ c.name = some "" ∨ c.description = none ∨ c.description = some "" →
      c.toJSON = Except.error ValidationError.requiredParameters) := by
  constructor
  · intro c n d hn hn0 hd hd0 hl1 hl2
    refine ⟨_, (SharedSlashCommand.toJSON_ok_iff c _).mpr ⟨?_, hl1, hl2, rfl⟩, by simp [hn], by simp [hd]⟩
    simp [validateRequiredParameters, hn, hd, hn0, hd0]
  · intro c h
    have hr : validateRequiredParameters c.name c.description c.options =
        .error .requiredParameters := by
      rcases h with h | h | h | h <;>
        rcases hx : c.name with - | n <;> rcases hy : c.description with - | d <;>
          simp_all [validateRequiredParameters]
    unfold SharedSlashCommand.toJSON
    simp [hr]

/-- Witness for C2: the success branch on `builtDescriptor` and the failure
branch on the freshly constructed descriptor. -/
theorem claim_C2_witness :
    (∃ doc, builtDescriptor.toJSON = Except.ok doc ∧
      doc.name = some "ping" ∧ doc.description = some "Replies with pong") ∧
    ({} : SharedSlashCommand).toJSON = Except.error ValidationError.requiredParameters :=
  ⟨claim_C2.1 builtDescriptor "ping" "Replies with pong" rfl (by decide) rfl (by decide) rfl rfl,
   claim_C2.2 {} (Or.inl rfl)⟩

/-- Claim C3: whenever a setter's validation rule rejects the (normalized)
input, the setter throws that validation error and the state at the throw
point is the entry state — every field, the target included, keeps its prior
value, so a subsequent `toJSON()` on the carried state cannot reflect the
rejected input. -/
theorem claim_C3 :
    (∀ (c : SharedSlashCommand) xs e, contextsPredicate (normalizeArray xs) = .error e →
      c.setContexts xs = Except.error (e, c)) ∧
    (∀ (c : SharedSlashCommand) xs e, integrationTypesPredicate (normalizeArray xs) = .error e →
      c.setIntegrationTypes xs = Except.error (e, c)) ∧
    (∀ (c : SharedSlashCommand) v e, validateDefaultPermission v = .error e →
      c.setDefaultPermission v = Except.error (e, c)) ∧
    (∀ (c : SharedSlashCommand) p e, validateDefaultMemberPermissions p = .error e →
      c.setDefaultMemberPermissions p = Except.error (e, c)) ∧
    (∀ (c : SharedSlashCommand) v e, validateDMPermission v = .error e →
      c.setDMPermission v = Except.error (e, c)) ∧
    (∀ (c : SharedSlashCommand) e, validateNSFW .other = .error e →
      c.setNSFW .other = Except.error (e, c)) := by
  refine ⟨?_, ?_, ?_, ?_, ?_, ?_⟩ <;> intro c
  · intro xs e h; simp [SharedSlashCommand.setContexts, h]
  · intro xs e h; simp [SharedSlashCommand.setIntegrationTypes, h]
  · intro v e h; simp [SharedSlashCommand.setDefaultPermission, h]
  · intro p e h; simp [SharedSlashCommand.setDefaultMemberPermissions, h]
  · intro v e h; simp [SharedSlashCommand.setDMPermission, h]
  · intro e h; simp [SharedSlashCommand.setNSFW, h]

/-- Witness for C3: one concrete rejected input per setter, each on the
already-configured `builtDescriptor`, which the error carries back unchanged. -/
theorem claim_C3_witness :
    builtDescriptor.setContexts (.rest []) =
      Except.error (.invalidContexts, builtDescriptor) ∧
    builtDescriptor.setIntegrationTypes (.arr []) =
      Except.error (.invalidIntegrationTypes, builtDescriptor) ∧
    builtDescriptor.setDefaultPermission .other =
      Except.error (.invalidDefaultPermission, builtDescriptor) ∧
    builtDescriptor.setDefaultMemberPermissions (.str "abc") =
      Except.error (.invalidDefaultMemberPermissions, builtDescriptor) ∧
    builtDescriptor.setDMPermission .other =
      Except.error (.invalidDMPermission, builtDescriptor) ∧
    builtDescriptor.setNSFW .other =
      Except.error (.invalidNSFW, builtDescriptor) :=
  ⟨claim_C3.1 builtDescriptor (.rest []) _ rfl,
   claim_C3.2.1 builtDescriptor (.arr []) _ rfl,
   claim_C3.2.2.1 builtDescriptor .other _ rfl,
   claim_C3.2.2.2.1 builtDescriptor (.str "abc") _ rfl,
   claim_C3.2.2.2.2.1 builtDescriptor .other _ rfl,
   claim_C3.2.2.2.2.2 builtDescriptor _ rfl⟩

/-- Claim C4: `toJSON()` runs its three precondition checks in a fixed order —
required parameters over `(name, description, options)`, then the
name-localization map, then the description-localization map — each able to
fail the call independently, and an earlier failure short-circuits: the call
returns that check's error whatever the later inputs hold, producing no
document. -/
theorem claim_C4 :
    (∀ (c : SharedSlashCommand) e,
      validateRequiredParameters c.name c.description c.options = .error e →
      c.toJSON = Except.error e) ∧
    (∀ (c : SharedSlashCommand) e,
      validateRequiredParameters c.name c.description c.options = .ok () →
      validateLocalizationMap c.name_localizations = .error e →
      c.toJSON = Except.error e) ∧
    (∀ (c : SharedSlashCommand) e,
      validateRequiredParameters c.name c.description c.options = .ok () →
      validateLocalizationMap c.name_localizations = .ok () →
      validateLocalizationMap c.description_localizations = .error e →
      c.toJSON = Except.error e) := by
  refine ⟨?_, ?_, ?_⟩ <;> intro c e
  · intro h; unfold SharedSlashCommand.toJSON; simp [h]
  · intro h1 h2; unfold SharedSlashCommand.toJSON; simp [h1, h2]
  · intro h1 h2 h3; unfold SharedSlashCommand.toJSON; simp [h1, h2, h3]

/-- Witness for C4: each check fails independently and in order.
`noNameBadLoc` fails on required parameters even though its
description-localization map is also invalid; `bothLocBad` holds distinct
invalid entries in both maps and the call reports the one from the name map;
`descLocBad` reaches the third check and reports its entry. -/
theorem claim_C4_witness :
    noNameBadLoc.toJSON = Except.error ValidationError.requiredParameters ∧
    bothLocBad.toJSON =
      Except.error (ValidationError.invalidLocalization ("xx", "a")) ∧
    descLocBad.toJSON =
      Except.error (ValidationError.invalidLocalization ("yy", "b")) :=
  ⟨claim_C4.1 noNameBadLoc _ rfl,
   claim_C4.2.1 bothLocBad _ rfl rfl,
   claim_C4.2.2 descLocBad _ rfl rfl rfl⟩

/-- Claim C5: `setDefaultMemberPermissions(null)` always succeeds and stores
literally `null` (`some none`), not the unset sentinel (`none`); a subsequent
successful `toJSON()` therefore carries `default_member_permissions = null`
present in the document, distinguishing "explicitly unrestricted" from "never
configured". -/
theorem claim_C5 (c : SharedSlashCommand) (d : CommandJSONBody)
    (h : ({ c with default_member_permissions := some none } : SharedSlashCommand).toJSON =
      Except.ok d) :
    c.setDefaultMemberPermissions .null =
      Except.ok { c with default_member_permissions := some none } ∧
    d.default_member_permissions = some none := by
  refine ⟨rfl, ?_⟩
  obtain ⟨-, -, -, rfl⟩ := (SharedSlashCommand.toJSON_ok_iff _ d).mp h
  rfl

/-- Witness for C5 on `builtDescriptor`. -/
theorem claim_C5_witness :
    ({ builtDescriptor with default_member_permissions := some none } :
        SharedSlashCommand).toJSON =
      Except.ok { builtDoc with default_member_permissions := some none } ∧
    (builtDescriptor.setDefaultMemberPermissions .null =
      Except.ok { builtDescriptor with default_member_permissions := some none } ∧
     ({ builtDoc with default_member_permissions := some none } :
        CommandJSONBody).default_member_permissions = some none) :=
  ⟨rfl, claim_C5 builtDescriptor { builtDoc with default_member_permissions := some none } rfl⟩

/-- Claim C6: for every descriptor state, `setNSFW()` with the argument
omitted produces exactly the state `setNSFW(true)` produces, namely the
descriptor with `nsfw` stored as `true`. -/
theorem claim_C6 : ∀ c : SharedSlashCommand,
    c.setNSFW .omitted = c.setNSFW (.bool true) ∧
    c.setNSFW .omitted = Except.ok { c with nsfw := some true } :=
  fun _ => ⟨rfl, rfl⟩

/-- Claim C7: spreading the values and passing one array of the same values in
the same order are indistinguishable to `setContexts`, and likewise to
`setIntegrationTypes`: the two calling conventions normalize to the same
sequence, so the whole setter result — stored state included — is equal. -/
theorem claim_C7 : ∀ (c : SharedSlashCommand)
    (xs : List InteractionContextType) (ys : List ApplicationIntegrationType),
    c.setContexts (.rest xs) = c.setContexts (.arr xs) ∧
    c.setIntegrationTypes (.rest ys) = c.setIntegrationTypes (.arr ys) :=
  fun _ _ _ => ⟨rfl, rfl⟩

/-- The document `deprecatedSet.toJSON` returns: both deprecated fields appear
verbatim next to the newer permission fields. -/
def deprecatedDoc : CommandJSONBody :=
  { type := .chatInput
    name := some "ping"
    name_localizations := none
    description := some "pong"
    description_localizations := none
    options := []
    contexts := some [.guild]
    default_permission := some false
    default_member_permissions := some (some "8")
    dm_permission := some (some true)
    integration_types := none
    nsfw := none }

/-- Claim C8: `toJSON()` is idempotent — in the embedding it is a pure
function of the descriptor, which is passed back untouched, so a repeated call
with no intervening mutation returns the same document — and a mutation
between the two calls (here `setNSFW`) changes exactly the affected field in
the second output and nothing else. -/
theorem claim_C8 (c : SharedSlashCommand) (d : CommandJSONBody)
    (h : c.toJSON = Except.ok d) :
    c.toJSON = Except.ok d ∧
    (∀ (b : Bool) (c2 : SharedSlashCommand), c.setNSFW (.bool b) = Except.ok c2 →
      c2.toJSON = Except.ok { d with nsfw := some b }) := by
  refine ⟨h, ?_⟩
  intro b c2 hset
  obtain ⟨h1, h2, h3, rfl⟩ := (SharedSlashCommand.toJSON_ok_iff c d).mp h
  have hc2 : c2 = { c with nsfw := some b } := by
    simp [SharedSlashCommand.setNSFW, validateNSFW] at hset
    exact hset.symm
  subst hc2
  exact (SharedSlashCommand.toJSON_ok_iff _ _).mpr ⟨h1, h2, h3, rfl⟩

/-- Witness for C8: serializing `builtDescriptor`, toggling `nsfw` to `true`,
and serializing again changes only the `nsfw` field of the document. -/
theorem claim_C8_witness :
    builtDescriptor.toJSON = Except.ok builtDoc ∧
    builtDescriptor.setNSFW (.bool true) =
      Except.ok { builtDescriptor with nsfw := some true } ∧
    ({ builtDescriptor with nsfw := some true } : SharedSlashCommand).toJSON =
      Except.ok { builtDoc with nsfw := some true } :=
  ⟨rfl, rfl, (claim_C8 builtDescriptor builtDoc rfl).2 true _ rfl⟩

/-- Claim C9: the deprecated setters remain usable whatever the rest of the
state holds — `setDefaultPermission` stores any boolean and `setDMPermission`
stores boolean/`null` verbatim, with no co-occurrence check against
`default_member_permissions` or `contexts` — and `toJSON()` passes both
deprecated fields through unchanged: set values verbatim, unset left unset. -/
theorem claim_C9 :
    (∀ (c : SharedSlashCommand) (b : Bool),
      c.setDefaultPermission (.bool b) =
        Except.ok { c with default_permission := some b }) ∧
    (∀ (c : SharedSlashCommand) (b : Bool),
      c.setDMPermission (.bool b) = Except.ok { c with dm_permission := some (some b) }) ∧
    (∀ c : SharedSlashCommand,
      c.setDMPermission .null = Except.ok { c with dm_permission := some none }) ∧
    (∀ (c : SharedSlashCommand) (d : CommandJSONBody), c.toJSON = Except.ok d →
      d.default_permission = c.default_permission ∧ d.dm_permission = c.dm_permission) := by
  refine ⟨fun c b => rfl, fun c b => rfl, fun c => rfl, ?_⟩
  intro c d h
  obtain ⟨-, -, -, rfl⟩ := (SharedSlashCommand.toJSON_ok_iff c d).mp h
  exact ⟨rfl, rfl⟩

/-- Witness for C9: on `newerFieldsSet` (contexts and member permissions
already configured) both deprecated setters succeed, and `deprecatedSet`
serializes with both deprecated fields passed through verbatim. -/
theorem claim_C9_witness :
    newerFieldsSet.setDefaultPermission (.bool false) =
      Except.ok { newerFieldsSet with default_permission := some false } ∧
    newerFieldsSet.setDMPermission (.bool true) =
      Except.ok { newerFieldsSet with dm_permission := some (some true) } ∧
    newerFieldsSet.setDMPermission .null =
      Except.ok { newerFieldsSet with dm_permission := some none } ∧
    deprecatedSet.toJSON = Except.ok deprecatedDoc ∧
    deprecatedDoc.default_permission = deprecatedSet.default_permission ∧
    deprecatedDoc.dm_permission = deprecatedSet.dm_permission :=
  ⟨claim_C9.1 newerFieldsSet false,
   claim_C9.2.1 newerFieldsSet true,
   claim_C9.2.2.1 newerFieldsSet,
   rfl,
   (claim_C9.2.2.2 deprecatedSet deprecatedDoc rfl).1,
   (claim_C9.2.2.2 deprecatedSet deprecatedDoc rfl).2⟩

/-- Claim C10: passing `undefined` explicitly to `setNSFW` triggers the
JavaScript default parameter exactly like omitting the argument: both calls
store `true`; `setNSFW(undefined)` is not a way to reset the field. -/
theorem claim_C10 : ∀ c : SharedSlashCommand,
    c.setNSFW .undef = c.setNSFW .omitted ∧
    c.setNSFW .undef = Except.ok { c with nsfw := some true } :=
  fun _ => ⟨rfl, rfl⟩
